import Mathlib

/-!
Verification development for the Cameroon-BEAC DSGE simulator
(`dsge_simulator.py`, class `CompleteDSGEModelCameroon`).

The simulation core is embedded shallowly over `ℚ` (idealizing IEEE-754
float64 arithmetic by exact rationals):

* the 15×15 transition matrix `_build_transition_matrix` and the shock
  catalog are literal data;
* `simulate_shock` becomes the recurrence `stateAt` plus a table builder;
* the legacy numpy `RandomState` (Mersenne Twister MT19937 with integer
  seeding, tempering and 53-bit double extraction) is embedded exactly
  over `ℕ`, so the seed-42 uniform stream consumed by
  `generate_variance_decomposition` is available as concrete rationals;
* the process-global RNG is made explicit as an `RngState` value that
  operations receive and return (`np.random.seed(42)` replaces it by
  `seedState`);
* `np.random.normal` draws inside `generate_historical_decomposition`
  are abstracted as a stream parameter `gauss : ℕ → ℚ` (their values
  never influence control flow or shapes);
* the distribution requests of `generate_posterior_distributions`
  (`np.random.beta/gamma/normal` with derived hyperparameters and a
  sample count) are reified as `DrawSpec` values.
-/

namespace DSGE

/-! ### MT19937 (numpy legacy `RandomState`), exact integer embedding

`np.random.seed(42)` seeds via `mt[0] = 42`,
`mt[i] = (1812433253 * (mt[i-1] xor (mt[i-1] >>> 30)) + i) mod 2^32`.
The generator then twists the 624-word state in place and tempers each
word.  Only the first 360 output words (180 doubles) are ever consumed
by the simulator, so the twist is embedded for indices `< 454`, where
the in-place update reads at most one already-updated word. -/

def mtSeedStep (p i : Nat) : Nat :=
  (1812433253 * (p ^^^ (p >>> 30)) + i) % 4294967296

/-- Reversed initial MT state for seed 42: `mtSeedRev n = [mt n, …, mt 0]`. -/
def mtSeedRev : Nat → List Nat
  | 0 => [42]
  | n + 1 =>
    match mtSeedRev n with
    | [] => []
    | p :: rest => mtSeedStep p (n + 1) :: p :: rest

/-- The 624-word seeded state, in index order `mt 0, …, mt 623`. -/
def mtInit : List Nat := (mtSeedRev 623).reverse

def mtOld (i : Nat) : Nat := mtInit.getD i 0

/-- One twist step: `y` combines the high bit of `a` with the low bits of
`b`; the new word is `other ^^^ (y >>> 1) ^^^ (0x9908b0df if y is odd)`. -/
def mtTwistRaw (a b other : Nat) : Nat :=
  ((a &&& 2147483648) ||| (b &&& 2147483647)) >>> 1 ^^^ other ^^^
    (if ((a &&& 2147483648) ||| (b &&& 2147483647)) % 2 = 1 then 2567483615 else 0)

/-- Twisted word for `i < 227` (reads only pre-twist words). -/
def mtNewA (i : Nat) : Nat := mtTwistRaw (mtOld i) (mtOld (i + 1)) (mtOld (i + 397))

/-- Twisted word for `227 ≤ i < 454` (reads one already-twisted word). -/
def mtNewB (i : Nat) : Nat := mtTwistRaw (mtOld i) (mtOld (i + 1)) (mtNewA (i - 227))

/-- Post-twist state word, valid for `i < 454`; the stream uses `i < 360`. -/
def mtWordRaw (i : Nat) : Nat := if i < 227 then mtNewA i else mtNewB i

/-- MT19937 tempering. -/
def mtTemper (y0 : Nat) : Nat :=
  let y1 := y0 ^^^ (y0 >>> 11)
  let y2 := y1 ^^^ ((y1 <<< 7) &&& 2636928640)
  let y3 := y2 ^^^ ((y2 <<< 15) &&& 4022730752)
  y3 ^^^ (y3 >>> 18)

/-- The `k`-th 32-bit output of the seed-42 generator. -/
def mtOutput (k : Nat) : Nat := mtTemper (mtWordRaw k)

/-- 53-bit numerator of the `k`-th `rk_double` of the seed-42 stream:
`(out(2k) >>> 5) * 2^26 + (out(2k+1) >>> 6)`. -/
def uNat (k : Nat) : Nat :=
  (mtOutput (2 * k) >>> 5) * 67108864 + (mtOutput (2 * k + 1) >>> 6)

/-- The `k`-th `rk_double` of the seed-42 stream, an exact rational in `[0,1)`. -/
def rkDouble (k : Nat) : ℚ := (uNat k : ℚ) / 9007199254740992

/-! ### The process-global RNG made explicit

numpy's global `RandomState` is shared mutable state; we model the part
of it the simulator exercises as a stream of doubles plus a cursor.
`np.random.seed(42)` replaces the whole state by `seedState`. -/

structure RngState where
  stream : ℕ → ℚ
  pos : ℕ

/-- State right after `np.random.seed(42)`: the seed-42 double stream. -/
def seedState : RngState := ⟨rkDouble, 0⟩

/-- The `k`-th value of `np.random.uniform(lo, hi, n)` drawn on state `s`:
`lo + (hi - lo) * rk_double`. -/
def uniformAt (lo hi : ℚ) (s : RngState) (k : ℕ) : ℚ :=
  lo + (hi - lo) * s.stream (s.pos + k)

/-- State after consuming `n` doubles. -/
def advanceBy (s : RngState) (n : ℕ) : RngState := ⟨s.stream, s.pos + n⟩

/-! ### Shock catalog and transition matrix (`__init__`, `_build_transition_matrix`)

Variable index order (`Y, C, I, PI, R, W, L, NX, G, TAU, DEBT, CR, SPREAD,
RER, YGAP = range(15)`) and the column labels of the returned table. -/

def variableNames : List String :=
  ["PIB", "Consommation", "Investissement", "Inflation", "Taux_Interet",
   "Salaire_Reel", "Travail", "Exportations_Nettes", "Depenses_Publiques",
   "Recettes_Fiscales", "Dette_Publique", "Credit", "Spread_Bancaire",
   "Taux_Change_Reel", "Output_Gap"]

/-- Keys of `structural_shocks`, in python dict insertion order. -/
def catalogKeys : List String :=
  ["monetary", "fiscal", "productivity", "risk", "oil_price", "preference",
   "investment", "markup", "monetary_policy", "fiscal_rule", "external",
   "financial"]

/-- Rows of the fixed 15×15 transition matrix, literal coefficients from
`_build_transition_matrix`. -/
def transitionRows : List (List ℚ) :=
  [[0.85, 0.15, 0.20, -0.05, -0.12, 0.08, 0.12, 0.05, 0.08, 0.02, -0.01, 0.15, -0.03, 0.06, 0.10],
   [0.25, 0.75, 0.08, -0.03, -0.08, 0.12, 0.06, 0.02, 0.04, -0.02, 0.00, 0.08, -0.02, 0.03, 0.05],
   [0.15, 0.05, 0.65, -0.02, -0.15, 0.10, 0.15, 0.03, 0.06, -0.01, 0.00, 0.25, -0.04, 0.04, 0.08],
   [0.08, 0.03, 0.02, 0.55, 0.20, 0.05, 0.03, 0.02, 0.04, 0.02, 0.02, 0.03, 0.08, 0.12, 0.06],
   [0.06, 0.02, 0.02, 0.25, 0.75, 0.02, 0.02, 0.01, 0.02, 0.01, 0.02, 0.02, 0.12, 0.08, 0.15],
   [0.12, 0.10, 0.06, 0.03, -0.04, 0.80, 0.25, 0.02, 0.03, 0.01, 0.00, 0.10, -0.02, 0.03, 0.08],
   [0.15, 0.08, 0.10, 0.02, -0.06, 0.20, 0.75, 0.02, 0.05, 0.01, 0.00, 0.12, -0.02, 0.02, 0.10],
   [0.04, 0.02, 0.03, 0.04, -0.03, 0.03, 0.02, 0.65, 0.01, 0.00, 0.00, 0.02, 0.03, 0.35, 0.03],
   [0.03, 0.02, 0.02, 0.02, 0.02, 0.02, 0.02, 0.00, 0.70, 0.12, 0.08, 0.02, 0.00, 0.00, 0.04],
   [0.04, 0.03, 0.02, 0.03, 0.02, 0.03, 0.02, 0.00, 0.18, 0.75, 0.12, 0.03, 0.00, 0.00, 0.05],
   [0.02, 0.01, 0.01, 0.02, 0.03, 0.01, 0.01, 0.00, 0.12, 0.08, 0.90, 0.01, 0.02, 0.00, 0.02],
   [0.12, 0.06, 0.18, 0.02, -0.12, 0.10, 0.12, 0.02, 0.03, 0.01, 0.00, 0.75, 0.06, 0.03, 0.08],
   [0.03, 0.02, 0.02, 0.06, 0.12, 0.02, 0.02, 0.02, 0.01, 0.00, 0.02, 0.04, 0.75, 0.08, 0.04],
   [0.04, 0.02, 0.03, 0.10, 0.06, 0.03, 0.02, 0.35, 0.00, 0.00, 0.00, 0.03, 0.06, 0.75, 0.04],
   [0.12, 0.08, 0.06, 0.08, 0.10, 0.08, 0.10, 0.03, 0.03, 0.02, 0.01, 0.08, 0.03, 0.04, 0.70]]

/-- Transition matrix entry `A[i][j]`. -/
def Amat (i j : Fin 15) : ℚ := (transitionRows.getD i []).getD j 0

/-! ### `simulate_shock`

The shock vector is `np.zeros(15)` with at most three coordinates
assigned per shock type (an unmatched type leaves it zero); the state
trajectory follows the loop `for t in range(1, periods)`. -/

/-- Shock vector coordinate `i` for a given shock type and amplitude,
mirroring the if/elif chain of `simulate_shock` (indices
`Y=0, C=1, I=2, PI=3, R=4, W=5, L=6, NX=7, G=8, TAU=9, DEBT=10, CR=11,
SPREAD=12, RER=13, YGAP=14`). -/
def shockVec (shock_type : String) (shock_size : ℚ) (i : Fin 15) : ℚ :=
  if shock_type = "monetary" then
    (if i = 4 then shock_size else if i = 11 then -shock_size * 0.8
     else if i = 2 then -shock_size * 0.6 else 0)
  else if shock_type = "fiscal" then
    (if i = 8 then shock_size else if i = 0 then shock_size * 0.6
     else if i = 10 then shock_size * 0.8 else 0)
  else if shock_type = "productivity" then
    (if i = 0 then shock_size else if i = 5 then shock_size * 0.7
     else if i = 3 then -shock_size * 0.3 else 0)
  else if shock_type = "risk" then
    (if i = 12 then shock_size else if i = 11 then -shock_size * 0.9
     else if i = 13 then shock_size * 0.5 else 0)
  else if shock_type = "oil_price" then
    (if i = 7 then shock_size * 0.8 else if i = 3 then shock_size * 0.4
     else if i = 0 then shock_size * 0.3 else 0)
  else if shock_type = "preference" then
    (if i = 1 then shock_size else if i = 6 then -shock_size * 0.5
     else if i = 5 then shock_size * 0.3 else 0)
  else if shock_type = "investment" then
    (if i = 2 then shock_size else if i = 0 then shock_size * 0.7
     else if i = 11 then shock_size * 0.6 else 0)
  else if shock_type = "markup" then
    (if i = 3 then shock_size else if i = 0 then -shock_size * 0.4
     else if i = 5 then -shock_size * 0.2 else 0)
  else if shock_type = "monetary_policy" then
    (if i = 4 then shock_size * 1.2 else if i = 14 then -shock_size * 0.5
     else if i = 3 then -shock_size * 0.3 else 0)
  else if shock_type = "fiscal_rule" then
    (if i = 9 then shock_size else if i = 8 then -shock_size * 0.5
     else if i = 10 then -shock_size * 0.3 else 0)
  else if shock_type = "external" then
    (if i = 13 then shock_size else if i = 4 then shock_size * 0.3
     else if i = 7 then -shock_size * 0.4 else 0)
  else if shock_type = "financial" then
    (if i = 11 then -shock_size else if i = 12 then shock_size * 1.5
     else if i = 2 then -shock_size * 0.8 else 0)
  else 0

/-- The all-zero state (column 0 of `X`, never written by the loop). -/
def zeroState : Fin 15 → ℚ := fun _ => 0

/-- Matrix-vector product `A @ v`. -/
def matVec (A : Fin 15 → Fin 15 → ℚ) (v : Fin 15 → ℚ) (i : Fin 15) : ℚ :=
  ∑ j, A i j * v j

/-- Persistence factor of period `t`: `0.8 if t < 8 else 0.9`. -/
def persistence (t : ℕ) : ℚ := if t < 8 then 0.8 else 0.9

/-- Column `t` of the state array `X`, as produced by the loop
`for t in range(1, periods)`: column 0 stays zero, column 1 is
`A @ zeros + shock_vec`, later columns are `(A @ X[:,t-1]) * persistence`. -/
def stateAt (shock_type : String) (shock_size : ℚ) : ℕ → Fin 15 → ℚ
  | 0 => zeroState
  | 1 => fun i => matVec Amat zeroState i + shockVec shock_type shock_size i
  | t + 2 => fun i =>
      matVec Amat (stateAt shock_type shock_size (t + 1)) i * persistence (t + 2)

/-- The returned table: one row per period `0 .. periods-1`; a row holds
the 15 variable values (columns named by `variableNames`) and the
`Periode` column value. -/
def simulate_shock (shock_type : String) (shock_size : ℚ) (periods : ℕ) :
    List ((Fin 15 → ℚ) × ℕ) :=
  (List.range periods).map fun t => (stateAt shock_type shock_size t, t)

/-- Variable part of row `t` of a result table. -/
def getRow (df : List ((Fin 15 → ℚ) × ℕ)) (t : ℕ) : Fin 15 → ℚ :=
  (df.getD t (zeroState, 0)).1

/-- The `Periode` entry of row `t` of a result table. -/
def getPeriode (df : List ((Fin 15 → ℚ) × ℕ)) (t : ℕ) : ℕ :=
  (df.getD t (zeroState, 0)).2

/-! ### `generate_variance_decomposition`

Hand-assigned prior contributions (rows PIB and Inflation; all other
rows zero), plus `np.random.uniform(-0.02, 0.02)` noise on the seed-42
state, clipped to `[0, 1]` and row-normalized.  The `horizon` argument
is accepted but never used by the source. -/

/-- Hand-assigned contributions in hundredths (the source literals are
`0.35 = 35/100` and so on).  Columns follow `catalogKeys` order:
`0 monetary, 1 fiscal, 2 productivity, 3 risk, 4 oil_price,
5 preference, 6 investment, 7 markup, 8 monetary_policy, 9 fiscal_rule,
10 external, 11 financial`. -/
def bCents (i : Fin 15) (j : Fin 12) : ℕ :=
  if i = 0 then
    (if j = 2 then 35 else if j = 0 then 15 else if j = 1 then 12
     else if j = 5 then 10 else if j = 6 then 8 else if j = 11 then 7
     else if j = 4 then 6 else if j = 10 then 4 else if j = 3 then 3 else 0)
  else if i = 3 then
    (if j = 0 then 25 else if j = 7 then 20 else if j = 4 then 15
     else if j = 8 then 12 else if j = 10 then 10 else if j = 1 then 8
     else if j = 2 then 6 else if j = 3 then 4 else 0)
  else 0

/-- `np.clip(x, 0, 1)`. -/
def clipQ (x : ℚ) : ℚ := max 0 (min 1 x)

/-- Entry `(i, j)` of `contributions` after noise and clipping: the noise
array is filled in C order, so entry `(i, j)` consumes double `12*i + j`
of the freshly seeded stream. -/
def gvdContrib (i : Fin 15) (j : Fin 12) : ℚ :=
  clipQ ((bCents i j : ℚ) / 100 +
    uniformAt (-0.02) 0.02 seedState (12 * i.val + j.val))

/-- Entry `(i, j)` of the returned table: row-normalized contributions. -/
def gvdTable (i : Fin 15) (j : Fin 12) : ℚ :=
  gvdContrib i j / ∑ j', gvdContrib i j'

/-- The operation: reseeds the global RNG to 42 (discarding the ambient
state), consumes 180 uniform doubles, and returns the normalized
variance-decomposition table (rows = 15 variables, columns = 12 shocks).
`horizon` is unused, exactly as in the source. -/
def generate_variance_decomposition (horizon : ℕ) (rng : RngState) :
    (Fin 15 → Fin 12 → ℚ) × RngState :=
  (fun i j => gvdTable i j, advanceBy seedState 180)

/-! ### `generate_historical_decomposition`

One synthetic series per shock (hardcoded episode windows written by
numpy slice assignment, which raises a broadcast error when the window
length does not match the value count), a composite observed-output
series, and a quarterly date index (modelled as `0 .. periods-1`).
Normal draws are abstracted by the stream `gauss`; column labels use the
shock keys (the source uses the French display names, a bijective
relabeling).  -/

/-- `np.linspace a b n` (used only with `n ∈ {2, 4, 8}`). -/
def linspace (a b : ℚ) (n : ℕ) : List ℚ :=
  (List.range n).map fun (i : ℕ) => a + ((i : ℚ) / ((n : ℚ) - 1)) * (b - a)

/-- numpy slice assignment `xs[start:stop] = vals`: succeeds only when
the effective slice length equals `vals.length`, else raises a
broadcast (shape-mismatch) error. -/
def setSlice (xs : List ℚ) (start stop : ℕ) (vals : List ℚ) :
    Except String (List ℚ) :=
  if vals.length = min stop xs.length - start then
    .ok (xs.take start ++ vals ++ xs.drop (start + vals.length))
  else .error "could not broadcast input array"

/-- `np.cumsum`. -/
def cumsum (xs : List ℚ) : List ℚ :=
  (List.range xs.length).map fun t => (xs.take (t + 1)).sum

/-- `np.random.normal mu sigma n` on the abstract normal stream, reading
positions `ctr, …, ctr+n-1`. -/
def normalSeq (gauss : ℕ → ℚ) (mu sigma : ℚ) (n ctr : ℕ) : List ℚ :=
  (List.range n).map fun k => mu + sigma * gauss (ctr + k)

/-- Per-shock episodic series (`base_series`), with the hardcoded windows
of the source, and the updated normal-stream cursor. -/
def episodeSeries (gauss : ℕ → ℚ) (periods ctr : ℕ) (shock : String) :
    Except String (List ℚ × ℕ) :=
  if shock = "oil_price" then do
    let s1 ← setSlice (List.replicate periods 0) 0 8 (linspace (-0.3) (-0.1) 8)
    let s2 ← setSlice s1 16 20 (linspace 0.2 0.4 4)
    pure (s2, ctr)
  else if shock = "monetary" then do
    let s1 ← setSlice (List.replicate periods 0) 12 16 (linspace (-0.4) (-0.2) 4)
    let s2 ← setSlice s1 18 20 (linspace 0.1 0.3 2)
    pure (s2, ctr)
  else if shock = "fiscal" then do
    let s1 ← setSlice (List.replicate periods 0) 12 16 (linspace 0.3 0.5 4)
    let s2 ← setSlice s1 18 20 (linspace (-0.1) (-0.2) 2)
    pure (s2, ctr)
  else if shock = "productivity" then
    pure (cumsum (normalSeq gauss 0.01 0.02 periods ctr), ctr + periods)
  else if shock = "risk" then do
    let s1 ← setSlice (List.replicate periods 0) 12 14 (linspace 0.4 0.6 2)
    pure (s1, ctr)
  else pure (List.replicate periods 0, ctr)

/-- The loop `for shock in shock_names`, accumulating the per-shock
columns and threading the normal-stream cursor; a broadcast error at
any shock aborts the whole loop, as an exception would. -/
def ghdLoop (gauss : ℕ → ℚ) (periods : ℕ) :
    List String → List (String × List ℚ) × ℕ →
    Except String (List (String × List ℚ) × ℕ)
  | [], acc => .ok acc
  | shock :: rest, acc => do
    let r ← episodeSeries gauss periods acc.2 shock
    ghdLoop gauss periods rest (acc.1 ++ [(shock, r.1)], r.2)

/-- The per-shock columns, accumulated over `catalogKeys` in order
(`monetary` first). -/
def ghdColumns (gauss : ℕ → ℚ) (periods : ℕ) :
    Except String (List (String × List ℚ) × ℕ) :=
  ghdLoop gauss periods catalogKeys ([], 0)

/-- The returned historical table: named columns plus the date index. -/
structure HistTable where
  columns : List (String × List ℚ)
  dates : List ℕ

/-- The observed-output column
`100 + cumsum(normal(0.02, 0.015, periods) + 0.3 * column sum)`, where
the normal draws read the stream from cursor position `ctr`. -/
def pibColumn (gauss : ℕ → ℚ) (periods ctr : ℕ)
    (cols : List (String × List ℚ)) : List ℚ :=
  (cumsum ((List.range periods).map fun t =>
    (normalSeq gauss 0.02 0.015 periods ctr).getD t 0 +
      ((cols.map fun c => c.2.getD t 0).sum) * 0.3)).map fun x => 100 + x

/-- The operation: builds the 12 shock columns, then the observed-output
column, and the quarterly date index. -/
def generate_historical_decomposition (gauss : ℕ → ℚ) (periods : ℕ) :
    Except String HistTable := do
  let r ← ghdColumns gauss periods
  pure ⟨r.1 ++ [("PIB Observe", pibColumn gauss periods r.2 r.1)],
    List.range periods⟩

/-! ### `generate_posterior_distributions`

The parameter catalog `param_distributions` (display descriptions
omitted), and the distribution request issued for each parameter: a
`DrawSpec` records which numpy sampler is called, with which derived
hyperparameters, and how many i.i.d. samples are requested — the shallow
embedding of `np.random.beta(a, b, n)` and friends. -/

structure ParamPrior where
  name : String
  mean : ℚ
  std : ℚ
  dist : String

/-- The 15 structural parameters, in python dict insertion order. -/
def param_distributions : List ParamPrior :=
  [⟨"beta", 0.96, 0.01, "beta"⟩,
   ⟨"sigma", 2.0, 0.2, "gamma"⟩,
   ⟨"phi", 1.5, 0.15, "gamma"⟩,
   ⟨"theta_c", 0.3, 0.03, "beta"⟩,
   ⟨"eta", 1.5, 0.1, "gamma"⟩,
   ⟨"delta", 0.1, 0.01, "beta"⟩,
   ⟨"alpha", 0.35, 0.03, "beta"⟩,
   ⟨"theta", 0.75, 0.05, "beta"⟩,
   ⟨"epsilon", 6.0, 0.5, "gamma"⟩,
   ⟨"mu", 0.02, 0.005, "gamma"⟩,
   ⟨"rr", 0.05, 0.01, "beta"⟩,
   ⟨"rho_g", 0.7, 0.05, "beta"⟩,
   ⟨"phi_pi", 1.5, 0.1, "gamma"⟩,
   ⟨"phi_y", 0.5, 0.05, "gamma"⟩,
   ⟨"pi_star", 0.03, 0.005, "beta"⟩]

/-- A reified numpy distribution request: family, hyperparameters, and
requested sample count. -/
inductive DrawSpec where
  | betaDraw (a b : ℚ) (n : ℕ)
  | gammaDraw (shape scale : ℚ) (n : ℕ)
  | normalDraw (mean std : ℚ) (n : ℕ)
deriving DecidableEq

/-- Number of i.i.d. samples a request returns. -/
def drawCount : DrawSpec → ℕ
  | .betaDraw _ _ n => n
  | .gammaDraw _ _ n => n
  | .normalDraw _ _ n => n

/-- The operation: for each parameter, the sampler called and its derived
hyperparameters — `beta(mean*20, (1-mean)*20)`,
`gamma((mean/std)^2, std^2/mean)`, or the `normal(mean, std)` fallback —
each asked for `n_draws` samples. -/
def generate_posterior_distributions (n_draws : ℕ) : List (String × DrawSpec) :=
  param_distributions.map fun p =>
    (p.name,
      if p.dist = "beta" then
        .betaDraw (p.mean * 20) ((1 - p.mean) * 20) n_draws
      else if p.dist = "gamma" then
        .gammaDraw ((p.mean / p.std) ^ 2) (p.std ^ 2 / p.mean) n_draws
      else
        .normalDraw p.mean p.std n_draws)

/-! ### Supporting lemmas for `simulate_shock` -/

lemma matVec_zeroState (A : Fin 15 → Fin 15 → ℚ) (i : Fin 15) :
    matVec A zeroState i = 0 := by
  simp [matVec, zeroState]

lemma matVec_eq_zero {v : Fin 15 → ℚ} (A : Fin 15 → Fin 15 → ℚ) (i : Fin 15)
    (hv : ∀ j, v j = 0) : matVec A v i = 0 := by
  rw [matVec]
  exact Finset.sum_eq_zero fun j _ => by rw [hv j, mul_zero]

lemma simulate_shock_getD (ty : String) (a : ℚ) {t h : ℕ} (ht : t < h) :
    (simulate_shock ty a h).getD t (zeroState, 0) = (stateAt ty a t, t) := by
  simp [simulate_shock, List.getD_eq_getElem?_getD, List.getElem?_map,
    List.getElem?_range, ht]

lemma getRow_simulate (ty : String) (a : ℚ) {t h : ℕ} (ht : t < h) :
    getRow (simulate_shock ty a h) t = stateAt ty a t := by
  rw [getRow, simulate_shock_getD ty a ht]

lemma ite_mul_congr {p : Prop} [Decidable p] {x y u v k : ℚ}
    (hx : x = k * u) (hy : y = k * v) :
    (if p then x else y) = k * (if p then u else v) := by
  split_ifs <;> assumption

lemma shockVec_mul (ty : String) (k a : ℚ) (i : Fin 15) :
    shockVec ty (k * a) i = k * shockVec ty a i := by
  unfold shockVec
  iterate 12 refine ite_mul_congr (by split_ifs <;> ring) ?_
  ring

lemma matVec_mul (A : Fin 15 → Fin 15 → ℚ) (v : Fin 15 → ℚ) (k : ℚ)
    (i : Fin 15) : matVec A (fun j => k * v j) i = k * matVec A v i := by
  simp only [matVec, Finset.mul_sum]
  exact Finset.sum_congr rfl fun j _ => by ring

lemma stateAt_mul (ty : String) (k a : ℚ) :
    ∀ t i, stateAt ty (k * a) t i = k * stateAt ty a t i := by
  intro t
  induction t using Nat.twoStepInduction with
  | zero => intro i; simp [stateAt, zeroState]
  | one =>
    intro i
    simp [stateAt, matVec_zeroState, shockVec_mul]
  | more n _ ih1 =>
    intro i
    have hfun : (stateAt ty (k * a) (n + 1)) = fun j => k * stateAt ty a (n + 1) j :=
      funext ih1
    show matVec Amat (stateAt ty (k * a) (n + 1)) i * persistence (n + 2) =
      k * (matVec Amat (stateAt ty a (n + 1)) i * persistence (n + 2))
    rw [hfun, matVec_mul]
    ring

lemma shockVec_unknown (ty : String) (hty : ty ∉ catalogKeys) (a : ℚ)
    (i : Fin 15) : shockVec ty a i = 0 := by
  simp only [catalogKeys, List.mem_cons, List.not_mem_nil, or_false, not_or] at hty
  obtain ⟨h1, h2, h3, h4, h5, h6, h7, h8, h9, h10, h11, h12⟩ := hty
  simp [shockVec, h1, h2, h3, h4, h5, h6, h7, h8, h9, h10, h11, h12]

lemma stateAt_unknown (ty : String) (hty : ty ∉ catalogKeys) (a : ℚ) :
    ∀ t i, stateAt ty a t i = 0 := by
  intro t
  induction t using Nat.twoStepInduction with
  | zero => intro i; simp [stateAt, zeroState]
  | one =>
    intro i
    show matVec Amat zeroState i + shockVec ty a i = 0
    rw [matVec_zeroState, shockVec_unknown ty hty, add_zero]
  | more n _ ih1 =>
    intro i
    show matVec Amat (stateAt ty a (n + 1)) i * persistence (n + 2) = 0
    rw [matVec_eq_zero Amat i ih1, zero_mul]

/-! ### Claims about `simulate_shock` -/

/-- C1: for every shock type in the catalog, amplitude `a` and horizon
`h ≥ 2`, the table returned by `simulate_shock` is the trajectory with
`state[0] = 0`, `state[1] = shockVec` (no transition-matrix contribution
at period 1), and `state[t] = (A @ state[t-1]) * persistence(t)` for
`2 ≤ t < h`, where `persistence(t)` is `0.8` for `t < 8` and `0.9` for
`t ≥ 8`. -/
theorem simulate_trajectory_spec (ty : String) (hty : ty ∈ catalogKeys)
    (a : ℚ) (h : ℕ) (hh : 2 ≤ h) :
    (∀ i, getRow (simulate_shock ty a h) 0 i = 0) ∧
    (∀ i, getRow (simulate_shock ty a h) 1 i = shockVec ty a i) ∧
    (∀ t, 2 ≤ t → t < h → ∀ i,
      getRow (simulate_shock ty a h) t i =
        matVec Amat (getRow (simulate_shock ty a h) (t - 1)) i *
          (if t < 8 then 0.8 else 0.9)) := by
  refine ⟨?_, ?_, ?_⟩
  · intro i
    rw [getRow_simulate ty a (by omega)]
    simp [stateAt, zeroState]
  · intro i
    rw [getRow_simulate ty a (by omega)]
    show matVec Amat zeroState i + shockVec ty a i = shockVec ty a i
    rw [matVec_zeroState, zero_add]
  · intro t h2 hth i
    obtain ⟨k, rfl⟩ : ∃ k, t = k + 2 := ⟨t - 2, by omega⟩
    rw [getRow_simulate ty a hth, getRow_simulate ty a (show k + 2 - 1 < h by omega)]
    show matVec Amat (stateAt ty a (k + 1)) i * persistence (k + 2) = _
    rw [show k + 2 - 1 = k + 1 from rfl, persistence]

/-- Witness for C1: the period-1 interest-rate response of a monetary
shock of amplitude 1 over horizon 2 equals the shock-vector coordinate. -/
theorem simulate_trajectory_spec_witness :
    getRow (simulate_shock "monetary" 1 2) 1 4 = shockVec "monetary" 1 4 :=
  (simulate_trajectory_spec "monetary" (by decide) 1 2 (by omega)).2.1 4

/-- C2: `simulate_shock "monetary" 0.02 40` has an all-zero period-0 row,
and its period-1 row is `Taux_Interet = 0.02`, `Credit = -0.016`,
`Investissement = -0.012`, with every other coordinate zero. -/
theorem monetary_shock_002_period1 :
    (∀ i, getRow (simulate_shock "monetary" 0.02 40) 0 i = 0) ∧
    getRow (simulate_shock "monetary" 0.02 40) 1 4 = 0.02 ∧
    getRow (simulate_shock "monetary" 0.02 40) 1 11 = -0.016 ∧
    getRow (simulate_shock "monetary" 0.02 40) 1 2 = -0.012 ∧
    (∀ i : Fin 15, i ≠ 4 → i ≠ 11 → i ≠ 2 →
      getRow (simulate_shock "monetary" 0.02 40) 1 i = 0) := by
  have h0 : ∀ i, getRow (simulate_shock "monetary" 0.02 40) 0 i = 0 := by
    intro i
    rw [getRow_simulate _ _ (by omega)]
    simp [stateAt, zeroState]
  have h1 : ∀ i, getRow (simulate_shock "monetary" 0.02 40) 1 i =
      shockVec "monetary" 0.02 i := by
    intro i
    rw [getRow_simulate _ _ (by omega)]
    show matVec Amat zeroState i + shockVec "monetary" 0.02 i = _
    rw [matVec_zeroState, zero_add]
  refine ⟨h0, ?_, ?_, ?_, ?_⟩
  · rw [h1]; norm_num +decide [shockVec]
  · rw [h1]; norm_num +decide [shockVec]
  · rw [h1]; norm_num +decide [shockVec]
  · intro i hi4 hi11 hi2
    rw [h1]
    simp [shockVec, hi4, hi11, hi2]

/-- Witness for C2: coordinate 7 (net exports) of the period-1 row is 0. -/
theorem monetary_shock_002_period1_witness :
    getRow (simulate_shock "monetary" 0.02 40) 1 7 = 0 :=
  monetary_shock_002_period1.2.2.2.2 7 (by decide) (by decide) (by decide)

/-- C4 (amended): for a shock type that is not a catalog key,
`simulate_shock` does not fail: the unmatched if/elif chain leaves the
shock vector zero, so it returns a table of the requested length whose
variable values are all zero. -/
theorem simulate_unknown_shock_zero_table (ty : String)
    (hty : ty ∉ catalogKeys) (a : ℚ) (h : ℕ) :
    (simulate_shock ty a h).length = h ∧
    ∀ t i, getRow (simulate_shock ty a h) t i = 0 := by
  refine ⟨by simp [simulate_shock], ?_⟩
  intro t i
  by_cases ht : t < h
  · rw [getRow_simulate ty a ht]
    exact stateAt_unknown ty hty a t i
  · rw [getRow, List.getD_eq_default]
    · rfl
    · simpa [simulate_shock] using Nat.le_of_not_lt ht

/-- Witness for C4's amended claim at the unknown key "tariff". -/
theorem simulate_unknown_shock_zero_table_witness :
    (simulate_shock "tariff" 2 5).length = 5 ∧
    getRow (simulate_shock "tariff" 2 5) 3 7 = 0 :=
  ⟨(simulate_unknown_shock_zero_table "tariff" (by decide) 2 5).1,
   (simulate_unknown_shock_zero_table "tariff" (by decide) 2 5).2 3 7⟩

/-- Counterexample for C4 as stated: "demand" is not a catalog key, yet
`simulate_shock "demand" 1 3` returns a result table (3 rows, zero
variable values) instead of failing with an unknown-shock error — the
source contains no shock-type validation. -/
theorem simulate_unknown_shock_counterexample :
    catalogKeys.contains "demand" = false ∧
    (simulate_shock "demand" 1 3).length = 3 ∧
    getRow (simulate_shock "demand" 1 3) 1 4 = 0 ∧
    getRow (simulate_shock "demand" 1 3) 2 4 = 0 := by
  refine ⟨by decide, by simp [simulate_shock], ?_, ?_⟩
  · rw [getRow_simulate _ _ (by omega)]
    exact stateAt_unknown "demand" (by decide) 1 1 4
  · rw [getRow_simulate _ _ (by omega)]
    exact stateAt_unknown "demand" (by decide) 1 2 4

/-- C6: amplitude linearity — every entry of
`simulate_shock ty (k*a) h` equals `k` times the corresponding entry of
`simulate_shock ty a h`, to within `1e-9` (they are equal exactly, since
the recurrence and the shock vector are linear in the amplitude). -/
theorem simulate_linearity (ty : String) (hty : ty ∈ catalogKeys)
    (a k : ℚ) (h : ℕ) (hh : 2 ≤ h) (t : ℕ) (ht : t < h) (i : Fin 15) :
    |getRow (simulate_shock ty (k * a) h) t i -
      k * getRow (simulate_shock ty a h) t i| ≤ 1 / 1000000000 := by
  rw [getRow_simulate ty _ ht, getRow_simulate ty a ht, stateAt_mul]
  simp

/-- Witness for C6: doubling a 0.01 monetary shock doubles the period-1
interest-rate entry. -/
theorem simulate_linearity_witness :
    |getRow (simulate_shock "monetary" (2 * 0.01) 2) 1 4 -
      2 * getRow (simulate_shock "monetary" 0.01 2) 1 4| ≤ 1 / 1000000000 :=
  simulate_linearity "monetary" (by decide) 0.01 2 2 (by omega) 1 (by omega) 4

/-- C7: for catalog shock types, amplitude `a` and horizon `h ≥ 1`, the
table has exactly `h` rows, 15 named variable columns plus the `Periode`
index running `0 .. h-1`, and an all-zero period-0 row. -/
theorem simulate_table_shape (ty : String) (hty : ty ∈ catalogKeys)
    (a : ℚ) (h : ℕ) (hh : 1 ≤ h) :
    (simulate_shock ty a h).length = h ∧
    variableNames.length = 15 ∧
    (∀ t, t < h → getPeriode (simulate_shock ty a h) t = t) ∧
    (∀ i, getRow (simulate_shock ty a h) 0 i = 0) := by
  refine ⟨by simp [simulate_shock], by decide, ?_, ?_⟩
  · intro t ht
    rw [getPeriode, simulate_shock_getD ty a ht]
  · intro i
    rw [getRow_simulate ty a (by omega)]
    simp [stateAt, zeroState]

/-- Witness for C7 at a fiscal shock over 12 periods. -/
theorem simulate_table_shape_witness :
    (simulate_shock "fiscal" 0.05 12).length = 12 ∧
    getPeriode (simulate_shock "fiscal" 0.05 12) 7 = 7 :=
  ⟨(simulate_table_shape "fiscal" (by decide) 0.05 12 (by omega)).1,
   (simulate_table_shape "fiscal" (by decide) 0.05 12 (by omega)).2.2.1 7 (by omega)⟩

/-! ### Supporting lemmas for `generate_variance_decomposition`

Row-sum positivity before normalization is certified by exhibiting, in
each row, one noise position whose seed-42 double exceeds `1/2` (so the
clipped entry is strictly positive); the positions were read off the
concrete MT19937 stream. -/

/-- A noise column certifying positivity of each contribution row. -/
def chosenJ (i : Fin 15) : Fin 12 :=
  match i.val with
  | 0 => 11
  | 1 => 0
  | 2 => 10
  | 3 => 7
  | 4 => 2
  | 5 => 9
  | 6 => 8
  | 7 => 4
  | 8 => 8
  | 9 => 4
  | 10 => 1
  | 11 => 7
  | 12 => 10
  | 13 => 9
  | _ => 10

set_option maxRecDepth 100000 in
lemma uNat_chosen_big :
    ∀ i : Fin 15, 2 ^ 52 < uNat (12 * i.val + (chosenJ i).val) := by decide

lemma uniform_noise_pos {k : ℕ} (hk : 2 ^ 52 < uNat k) :
    0 < uniformAt (-0.02) 0.02 seedState k := by
  have hu : (4503599627370496 : ℚ) < (uNat k : ℚ) := by exact_mod_cast hk
  unfold uniformAt seedState rkDouble
  simp only [Nat.zero_add]
  norm_num
  linarith

lemma gvdContrib_nonneg (i : Fin 15) (j : Fin 12) : 0 ≤ gvdContrib i j :=
  le_max_left _ _

lemma gvdContrib_chosen_pos (i : Fin 15) : 0 < gvdContrib i (chosenJ i) := by
  have hnoise := uniform_noise_pos (uNat_chosen_big i)
  have hb : (0 : ℚ) ≤ (bCents i (chosenJ i) : ℚ) / 100 := by positivity
  unfold gvdContrib clipQ
  have hx : 0 < (bCents i (chosenJ i) : ℚ) / 100 +
      uniformAt (-0.02) 0.02 seedState (12 * i.val + (chosenJ i).val) := by
    linarith
  exact lt_of_lt_of_le (lt_min one_pos hx) (le_max_right _ _)

lemma gvdRowSum_pos (i : Fin 15) : 0 < ∑ j, gvdContrib i j :=
  Finset.sum_pos' (fun j _ => gvdContrib_nonneg i j)
    ⟨chosenJ i, Finset.mem_univ _, gvdContrib_chosen_pos i⟩

/-! ### Claims about `generate_variance_decomposition` -/

/-- C3: for every forecast horizon (the argument is unused by the code)
and every ambient RNG state, every one of the 15 variable rows of the
returned variance-decomposition table — including the rows whose
hand-assigned contributions are all zero and whose entries come only
from clipped seed-42 uniform noise — sums to 1 within `1e-9` (exactly,
in rational arithmetic). -/
theorem variance_decomposition_row_sums (h : ℕ) (s : RngState) (i : Fin 15) :
    |(∑ j, (generate_variance_decomposition h s).1 i j) - 1| ≤ 1 / 1000000000 := by
  have hsum : (∑ j, (generate_variance_decomposition h s).1 i j) = 1 := by
    show (∑ j, gvdTable i j) = 1
    unfold gvdTable
    rw [← Finset.sum_div, div_self (ne_of_gt (gvdRowSum_pos i))]
  rw [hsum]
  norm_num

/-- C8: two calls of `generate_variance_decomposition` with the same
horizon return identical tables, whatever ambient RNG states the calls
run on — the operation reseeds the generator to 42 before drawing. -/
theorem variance_decomposition_deterministic (h : ℕ) (s1 s2 : RngState) :
    (generate_variance_decomposition h s1).1 =
      (generate_variance_decomposition h s2).1 := rfl

/-! ### Claim about `generate_posterior_distributions` -/

/-- C9: for every `n_draws ≥ 1`, the operation issues, for each of the
15 catalog parameters, a request for exactly `n_draws` samples — from
`Beta(mean*20, (1-mean)*20)` when the declared family is beta, from
`Gamma((mean/std)^2, std^2/mean)` when it is gamma, and from
`Normal(mean, std)` otherwise. -/
theorem posterior_distributions_spec (n : ℕ) (hn : 1 ≤ n) :
    (generate_posterior_distributions n).length = 15 ∧
    ∀ p ∈ param_distributions,
      (p.name,
        if p.dist = "beta" then
          DrawSpec.betaDraw (p.mean * 20) ((1 - p.mean) * 20) n
        else if p.dist = "gamma" then
          DrawSpec.gammaDraw ((p.mean / p.std) ^ 2) (p.std ^ 2 / p.mean) n
        else DrawSpec.normalDraw p.mean p.std n) ∈
          generate_posterior_distributions n ∧
      drawCount
        (if p.dist = "beta" then
          DrawSpec.betaDraw (p.mean * 20) ((1 - p.mean) * 20) n
        else if p.dist = "gamma" then
          DrawSpec.gammaDraw ((p.mean / p.std) ^ 2) (p.std ^ 2 / p.mean) n
        else DrawSpec.normalDraw p.mean p.std n) = n := by
  refine ⟨by simp [generate_posterior_distributions, param_distributions], ?_⟩
  intro p hp
  refine ⟨List.mem_map_of_mem _ hp, ?_⟩
  unfold drawCount
  split_ifs <;> rfl

/-- Witness for C9 at three draws. -/
theorem posterior_distributions_spec_witness :
    (generate_posterior_distributions 3).length = 15 :=
  (posterior_distributions_spec 3 (by decide)).1

/-! ### Supporting lemmas for `generate_historical_decomposition` -/

lemma setSlice_ok (xs vals : List ℚ) (start stop : ℕ)
    (h : vals.length = min stop xs.length - start) :
    ∃ ys, setSlice xs start stop vals = .ok ys ∧ ys.length = xs.length := by
  refine ⟨_, by rw [setSlice, if_pos h], ?_⟩
  simp only [List.length_append, List.length_take, List.length_drop]
  omega

lemma setSlice_err (xs vals : List ℚ) (start stop : ℕ)
    (h : vals.length ≠ min stop xs.length - start) :
    setSlice xs start stop vals = .error "could not broadcast input array" := by
  rw [setSlice, if_neg h]

lemma linspace_length (a b : ℚ) (n : ℕ) : (linspace a b n).length = n := by
  simp [linspace]

lemma cumsum_length (xs : List ℚ) : (cumsum xs).length = xs.length := by
  simp [cumsum]

lemma normalSeq_length (gauss : ℕ → ℚ) (mu sigma : ℚ) (n ctr : ℕ) :
    (normalSeq gauss mu sigma n ctr).length = n := by
  simp [normalSeq]

lemma pibColumn_length (gauss : ℕ → ℚ) (periods ctr : ℕ)
    (cols : List (String × List ℚ)) :
    (pibColumn gauss periods ctr cols).length = periods := by
  simp [pibColumn, cumsum_length]

lemma episodeSeries_ok (gauss : ℕ → ℚ) {periods : ℕ} (h20 : 20 ≤ periods)
    (ctr : ℕ) (shock : String) :
    ∃ s c, episodeSeries gauss periods ctr shock = .ok (s, c) ∧
      s.length = periods := by
  unfold episodeSeries
  split_ifs with h1 h2 h3 h4 h5
  · obtain ⟨y1, hy1, hl1⟩ := setSlice_ok (List.replicate periods 0)
      (linspace (-0.3) (-0.1) 8) 0 8
      (by simp [linspace_length]; omega)
    simp only [List.length_replicate] at hl1
    obtain ⟨y2, hy2, hl2⟩ := setSlice_ok y1 (linspace 0.2 0.4 4) 16 20
      (by simp [linspace_length, hl1]; omega)
    refine ⟨y2, ctr, ?_, by omega⟩
    rw [hy1]
    show (setSlice y1 16 20 (linspace 0.2 0.4 4)).bind _ = _
    rw [hy2]
    rfl
  · obtain ⟨y1, hy1, hl1⟩ := setSlice_ok (List.replicate periods 0)
      (linspace (-0.4) (-0.2) 4) 12 16
      (by simp [linspace_length]; omega)
    simp only [List.length_replicate] at hl1
    obtain ⟨y2, hy2, hl2⟩ := setSlice_ok y1 (linspace 0.1 0.3 2) 18 20
      (by simp [linspace_length, hl1]; omega)
    refine ⟨y2, ctr, ?_, by omega⟩
    rw [hy1]
    show (setSlice y1 18 20 (linspace 0.1 0.3 2)).bind _ = _
    rw [hy2]
    rfl
  · obtain ⟨y1, hy1, hl1⟩ := setSlice_ok (List.replicate periods 0)
      (linspace 0.3 0.5 4) 12 16
      (by simp [linspace_length]; omega)
    simp only [List.length_replicate] at hl1
    obtain ⟨y2, hy2, hl2⟩ := setSlice_ok y1 (linspace (-0.1) (-0.2) 2) 18 20
      (by simp [linspace_length, hl1]; omega)
    refine ⟨y2, ctr, ?_, by omega⟩
    rw [hy1]
    show (setSlice y1 18 20 (linspace (-0.1) (-0.2) 2)).bind _ = _
    rw [hy2]
    rfl
  · exact ⟨_, _, rfl, by simp [cumsum_length, normalSeq_length]⟩
  · obtain ⟨y1, hy1, hl1⟩ := setSlice_ok (List.replicate periods 0)
      (linspace 0.4 0.6 2) 12 14
      (by simp [linspace_length]; omega)
    simp only [List.length_replicate] at hl1
    refine ⟨y1, ctr, ?_, hl1⟩
    rw [hy1]
    rfl
  · exact ⟨_, _, rfl, by simp⟩

lemma episodeSeries_monetary_err (gauss : ℕ → ℚ) {periods : ℕ}
    (hp : periods < 20) (ctr : ℕ) :
    episodeSeries gauss periods ctr "monetary" =
      .error "could not broadcast input array" := by
  unfold episodeSeries
  rw [if_neg (by decide), if_pos rfl]
  by_cases h16 : periods < 16
  · rw [setSlice_err _ _ _ _ (by simp [linspace_length]; omega)]
    rfl
  · obtain ⟨y1, hy1, hl1⟩ := setSlice_ok (List.replicate periods 0)
      (linspace (-0.4) (-0.2) 4) 12 16
      (by simp [linspace_length]; omega)
    simp only [List.length_replicate] at hl1
    rw [hy1]
    show (setSlice y1 18 20 (linspace 0.1 0.3 2)).bind _ = _
    rw [setSlice_err _ _ _ _ (by simp [linspace_length, hl1]; omega)]
    rfl

lemma ghdLoop_ok (gauss : ℕ → ℚ) {periods : ℕ} (h20 : 20 ≤ periods) :
    ∀ (keys : List String) (acc : List (String × List ℚ) × ℕ),
      (∀ col ∈ acc.1, col.2.length = periods) →
      ∃ cols c, ghdLoop gauss periods keys acc = .ok (cols, c) ∧
        cols.length = acc.1.length + keys.length ∧
        ∀ col ∈ cols, col.2.length = periods := by
  intro keys
  induction keys with
  | nil =>
    intro acc hacc
    exact ⟨acc.1, acc.2, rfl, by simp, hacc⟩
  | cons shock rest ih =>
    intro acc hacc
    obtain ⟨s, c, hs, hslen⟩ := episodeSeries_ok gauss h20 acc.2 shock
    obtain ⟨cols, c2, hrec, hlen, hall⟩ :=
      ih (acc.1 ++ [(shock, s)], c) (by
        intro col hcol
        rcases List.mem_append.1 hcol with hmem | hmem
        · exact hacc col hmem
        · simp only [List.mem_singleton] at hmem
          rw [hmem]
          exact hslen)
    refine ⟨cols, c2, ?_, ?_, hall⟩
    · show (episodeSeries gauss periods acc.2 shock).bind _ = _
      rw [hs]
      exact hrec
    · simp only [List.length_append, List.length_cons, List.length_nil] at hlen ⊢
      omega

/-! ### Claim about `generate_historical_decomposition` -/

/-- C10: the operation returns a table with one row per quarter (a date
index of length `periods` and 13 columns of length `periods`) precisely
when `periods ≥ 20`; for `0 < periods < 20` the hardcoded episode
windows do not fit the series length and the first processed shock
(`monetary`, windows `12..15` and `18..19`) raises a broadcast
shape-mismatch error instead. -/
theorem historical_decomposition_shape (gauss : ℕ → ℚ) (p : ℕ) :
    ((∃ t, generate_historical_decomposition gauss p = .ok t ∧
        t.dates.length = p ∧ t.columns.length = 13 ∧
        ∀ c ∈ t.columns, c.2.length = p) ↔ 20 ≤ p) ∧
    (0 < p → p < 20 →
      generate_historical_decomposition gauss p =
        .error "could not broadcast input array") := by
  have herr : p < 20 →
      generate_historical_decomposition gauss p =
        .error "could not broadcast input array" := by
    intro hp
    show (ghdLoop gauss p catalogKeys ([], 0)).bind _ = _
    show ((episodeSeries gauss p 0 "monetary").bind _).bind _ = _
    rw [episodeSeries_monetary_err gauss hp 0]
    rfl
  have hok : 20 ≤ p →
      ∃ t, generate_historical_decomposition gauss p = .ok t ∧
        t.dates.length = p ∧ t.columns.length = 13 ∧
        ∀ c ∈ t.columns, c.2.length = p := by
    intro h20
    obtain ⟨cols, c, hcols, hlen, hall⟩ :=
      ghdLoop_ok gauss h20 catalogKeys ([], 0) (by simp)
    refine ⟨⟨cols ++ [("PIB Observe", pibColumn gauss p c cols)],
      List.range p⟩, ?_, by simp, ?_, ?_⟩
    · show (ghdLoop gauss p catalogKeys ([], 0)).bind _ = _
      rw [hcols]
      rfl
    · simp only [List.length_append, List.length_singleton]
      simp only [catalogKeys, List.length_nil, List.length_cons] at hlen
      omega
    · intro col hcol
      rcases List.mem_append.1 hcol with hmem | hmem
      · exact hall col hmem
      · simp only [List.mem_singleton] at hmem
        rw [hmem]
        exact pibColumn_length gauss p c cols
  refine ⟨⟨?_, hok⟩, fun _ hp => herr hp⟩
  rintro ⟨t, ht, -, -, -⟩
  by_contra hlt
  rw [herr (by omega)] at ht
  exact absurd ht (by simp)

/-- Witness for C10: at 5 quarters the operation fails with the
broadcast error. -/
theorem historical_decomposition_shape_witness :
    generate_historical_decomposition (fun _ => 0) 5 =
      .error "could not broadcast input array" :=
  (historical_decomposition_shape (fun _ => 0) 5).2 (by decide) (by decide)

end DSGE
